import Mathlib

/-!
Verification of the flo lobby/controller core against its natural-language
specification.  Rust sources are shallowly embedded: machine integers become
`Nat` with explicit bounds, byte buffers become `List Nat` (each element a
byte value), fallible code returns `Option`/`Except`, and the stateful lobby
operations become pure functions from an explicit state to an outcome that
records the resulting state and the observable events (lock acquisitions,
packets pushed to players, node RPC calls).
-/

namespace FloUtil

/-- Little-endian bytes of a `u16` value (`put_u16_le`). -/
def u16le (x : Nat) : List Nat :=
  [x % 256, x / 256 % 256]

/-- Little-endian bytes of a `u32` value (`put_u32_le`). -/
def u32le (x : Nat) : List Nat :=
  [x % 256, x / 256 % 256, x / 2 ^ 16 % 256, x / 2 ^ 24 % 256]

/-- Read one byte (`get_u8`); `none` when the buffer is exhausted. -/
def readU8 : List Nat → Option (Nat × List Nat)
  | [] => none
  | b :: r => some (b, r)

/-- Read a little-endian `u16` (`get_u16_le`). -/
def readU16le : List Nat → Option (Nat × List Nat)
  | b0 :: b1 :: r => some (b0 + 256 * b1, r)
  | _ => none

/-- Read a little-endian `u32` (`get_u32_le`). -/
def readU32le : List Nat → Option (Nat × List Nat)
  | b0 :: b1 :: b2 :: b3 :: r =>
    some (b0 + 256 * b1 + 2 ^ 16 * b2 + 2 ^ 24 * b3, r)
  | _ => none

/-- Read a NUL-terminated C string (`CString::decode`): the bytes before the
first `0`, and the remainder after the terminator.  `none` when no NUL byte
is present. -/
def readCString : List Nat → Option (List Nat × List Nat)
  | [] => none
  | 0 :: r => some ([], r)
  | b :: r =>
    match readCString r with
    | none => none
    | some (s, rest) => some (b :: s, rest)

/-- Modelled from the spec: parity mask accumulator of `flo_util::stat_string`
(the flo-util crate is not under src/).  Bit `i` of the result is the low bit
of the `i`-th byte of the group. -/
def ssMask : List Nat → Nat
  | [] => 0
  | b :: r => b % 2 + 2 * ssMask r

/-- Modelled from the spec: data bytes of one stat-string group; an even byte
is stored as `b + 1` so that every emitted byte has bit 0 set. -/
def ssEscape : List Nat → List Nat
  | [] => []
  | b :: r => (if b % 2 = 1 then b else b + 1) :: ssEscape r

/-- Fueled worker for `statStringEncode`; the fuel bounds the number of
seven-byte groups left, so the recursion is structural. -/
def ssEncodeAux : Nat → List Nat → List Nat
  | 0, _ => []
  | _, [] => []
  | fuel + 1, b :: r =>
    (1 + 2 * ssMask (b :: r.take 6)) :: (ssEscape (b :: r.take 6) ++ ssEncodeAux fuel (r.drop 6))

/-- Modelled from the spec: `flo_util::stat_string::encode` (not under src/).
Spec §4.1: a bit-packed transform of the raw buffer producing only bytes with
bit 0 set in every 8-byte group (one mask byte followed by up to seven escaped
data bytes). -/
def statStringEncode (l : List Nat) : List Nat :=
  ssEncodeAux l.length l

/-- Modelled from the spec: undo `ssEscape` using the parity bits of the mask:
where the mask bit is clear the stored byte was incremented. -/
def ssApplyMask : Nat → List Nat → List Nat
  | _, [] => []
  | m, b :: r => (if m % 2 = 1 then b else b - 1) :: ssApplyMask (m / 2) r

/-- Fueled worker for `statStringDecode`. -/
def ssDecodeAux : Nat → List Nat → List Nat
  | 0, _ => []
  | _, [] => []
  | fuel + 1, m :: rest =>
    ssApplyMask (m / 2) (rest.take 7) ++ ssDecodeAux fuel (rest.drop 7)

/-- Modelled from the spec: `flo_util::stat_string::decode` (not under src/);
inverse of `statStringEncode`, consuming one mask byte per group of up to
seven data bytes. -/
def statStringDecode (l : List Nat) : List Nat :=
  ssDecodeAux l.length l

/-- Modelled from the spec: `flo_util::stat_string::encoded_len` (not under
src/): the raw length plus one mask byte per started group of seven. -/
def statStringEncodedLen (n : Nat) : Nat :=
  n + (n + 6) / 7

end FloUtil

namespace W3GS

/-- `MessageScope` of the game-wire chat protocol
(`crates/w3gs/src/protocol/chat.rs`); the `Player` payload is a `u8`. -/
inductive MessageScope
  | all
  | allies
  | observers
  | player (v : Nat)
deriving DecidableEq, Repr

/-- `BinDecode for MessageScope`: case analysis on the little-endian `u32`
value read from the buffer (`chat.rs`): `0x00/0x01/0x02` are the broadcast
scopes, `n ≤ u8::MAX - 0x03` decodes to `Player(n - 0x03)`, anything larger
is a decode failure. -/
def MessageScope.decode (n : Nat) : Except String MessageScope :=
  if n = 0x00 then .ok .all
  else if n = 0x01 then .ok .allies
  else if n = 0x02 then .ok .observers
  else if n ≤ 0xFF - 0x03 then .ok (.player (n - 0x03))
  else .error ("invalid chat message scope value: " ++ toString n)

/-- `BinEncode for MessageScope`: the `u32` value written to the buffer
(`chat.rs`); note `Player(v)` is written as `0x02 + v`. -/
def MessageScope.encode : MessageScope → Nat
  | .all => 0x00
  | .allies => 0x01
  | .observers => 0x02
  | .player v => 0x02 + v

/-- `GameSettings` (`crates/w3gs/src/protocol/game.rs`).  `gameSettingFlags`
is the raw `u32` bit set (the `GameSettingFlags` constants live in the absent
`protocol/constants.rs`); the two C strings are their byte contents without
the NUL terminator; `mapSha1` is the 20-byte hash. -/
structure GameSettings where
  gameSettingFlags : Nat
  unk1 : Nat
  mapWidth : Nat
  mapHeight : Nat
  mapChecksum : Nat
  mapPath : List Nat
  hostName : List Nat
  mapSha1 : List Nat
deriving DecidableEq, Repr

/-- `BinEncode for GameSettings` (`game.rs`): build the raw stat-string
buffer by the source's sequence of `put_*` calls, stat-string encode it, and
append the trailing NUL. -/
def GameSettings.encode (g : GameSettings) : List Nat :=
  FloUtil.statStringEncode
    (FloUtil.u32le g.gameSettingFlags
      ++ [g.unk1]
      ++ FloUtil.u16le g.mapWidth
      ++ FloUtil.u16le g.mapHeight
      ++ FloUtil.u32le g.mapChecksum
      ++ g.mapPath ++ [0]
      ++ g.hostName ++ [0]
      ++ [0]
      ++ g.mapSha1)
  ++ [0]

/-- The raw (pre-stat-string) byte layout exactly as the claim and spec §6
state it: `flags(u32 LE) | 0x00 | w(u16 LE) | h(u16 LE) | checksum(u32 LE) |
map_path(cstr) | host_name(cstr) | 0x00 | sha1(20 bytes)`. -/
def GameSettings.claimedLayout (g : GameSettings) : List Nat :=
  FloUtil.u32le g.gameSettingFlags
    ++ [0]
    ++ FloUtil.u16le g.mapWidth
    ++ FloUtil.u16le g.mapHeight
    ++ FloUtil.u32le g.mapChecksum
    ++ g.mapPath ++ [0]
    ++ g.hostName ++ [0]
    ++ [0]
    ++ g.mapSha1

/-- The raw byte layout the source actually writes: the byte after the flags
is the structure's `unk_1` field, not a constant zero. -/
def GameSettings.sourceLayout (g : GameSettings) : List Nat :=
  FloUtil.u32le g.gameSettingFlags
    ++ [g.unk1]
    ++ FloUtil.u16le g.mapWidth
    ++ FloUtil.u16le g.mapHeight
    ++ FloUtil.u32le g.mapChecksum
    ++ g.mapPath ++ [0]
    ++ g.hostName ++ [0]
    ++ [0]
    ++ g.mapSha1

/-- `BinDecode for GameSettings` (`game.rs`).  `flagsMask` stands for the
union of the known `GameSettingFlags` bits (`protocol/constants.rs`, absent
from src/): `from_bits` succeeds exactly when the value contains no unknown
bit.  Mirrors the source: minimum-length check, outer C-string read,
stat-string decode, then field-by-field parse with the trailing
`1 + 20`-byte check. -/
def GameSettings.decode (flagsMask : Nat) (buf : List Nat) :
    Except String (GameSettings × List Nat) :=
  if buf.length < FloUtil.statStringEncodedLen 42 then .error "incomplete"
  else
    match FloUtil.readCString buf with
    | none => .error "incomplete"
    | some (cstr, rest) =>
      let data := FloUtil.statStringDecode cstr
      match FloUtil.readU32le data with
      | none => .error "incomplete"
      | some (flags, d1) =>
        if flags &&& flagsMask ≠ flags then .error "unknown game flags value"
        else
          match FloUtil.readU8 d1 with
          | none => .error "incomplete"
          | some (unk1, d2) =>
            match FloUtil.readU16le d2 with
            | none => .error "incomplete"
            | some (w, d3) =>
              match FloUtil.readU16le d3 with
              | none => .error "incomplete"
              | some (h, d4) =>
                match FloUtil.readU32le d4 with
                | none => .error "incomplete"
                | some (xoro, d5) =>
                  match FloUtil.readCString d5 with
                  | none => .error "incomplete"
                  | some (path, d6) =>
                    match FloUtil.readCString d6 with
                    | none => .error "incomplete"
                    | some (host, d7) =>
                      if d7.length ≠ 1 + 20 then .error "incomplete"
                      else
                        match d7 with
                        | 0 :: sha1 =>
                          .ok
                            ({ gameSettingFlags := flags
                               unk1 := unk1
                               mapWidth := w
                               mapHeight := h
                               mapChecksum := xoro
                               mapPath := path
                               hostName := host
                               mapSha1 := sha1 }, rest)
                        | _ => .error "zero byte expected"

/-- Well-formedness of a `GameSettings` value as dictated by the Rust field
types: each numeric field fits its machine width, C-string bytes are nonzero
bytes, and the SHA-1 blob is twenty bytes. -/
def GameSettings.wf (g : GameSettings) : Prop :=
  g.gameSettingFlags < 2 ^ 32 ∧ g.unk1 < 256 ∧
  g.mapWidth < 2 ^ 16 ∧ g.mapHeight < 2 ^ 16 ∧ g.mapChecksum < 2 ^ 32 ∧
  (∀ b ∈ g.mapPath, 0 < b ∧ b < 256) ∧
  (∀ b ∈ g.hostName, 0 < b ∧ b < 256) ∧
  g.mapSha1.length = 20 ∧ (∀ b ∈ g.mapSha1, b < 256)

instance (g : GameSettings) : Decidable g.wf := by
  unfold GameSettings.wf
  infer_instance

end W3GS

namespace Lobby

/-- Game lifecycle status (spec §3; `GameStatus` of the absent `types.rs`). -/
inductive GameStatus
  | preparing
  | starting
  | created
  | ended
deriving DecidableEq, Repr

/-- Slot settings are treated as an opaque value: the `SlotSettings` struct
lives in the absent `game/types.rs` and no claim inspects its fields. -/
abbrev SlotSettings := Nat

/-- One lobby slot of the persisted game row (`Slot` of the absent
`types.rs`): the occupying player id, when any, plus its settings. -/
structure Slot where
  player : Option Int
  settings : SlotSettings
deriving DecidableEq, Repr

/-- The persisted game row visible through the database executor (the
`crate::game::db` layer is not under src/; fields follow spec §3). -/
structure GameRow where
  id : Int
  host : Option Int
  node : Option Int
  slots : List Slot
  status : GameStatus
deriving DecidableEq, Repr

/-- Per-player in-memory state (`lock_player_state` guard of the absent
`crate::state`): the joined game and whether a sender channel is attached. -/
structure PlayerMem where
  joinedGameId : Option Int
  hasSender : Bool
deriving DecidableEq, Repr

/-- Per-game in-memory state (`LockedGameState` of the absent
`crate::state`): registered player ids, status and host. -/
structure GameMem where
  players : List Int
  status : GameStatus
  host : Option Int
deriving DecidableEq, Repr

/-- Modelled from the spec: `LockedGameState::player_slots_locked` (absent
`crate::state`); spec §4.5: `Starting` and `Created` set
`player_slots_locked = true`. -/
def GameMem.playerSlotsLocked (g : GameMem) : Bool :=
  g.status = .starting || g.status = .created

/-- Modelled from the spec: `LockedGameState::start_game_reset` (absent
`crate::state`) puts the game back to `Preparing`. -/
def GameMem.startGameReset (g : GameMem) : GameMem :=
  { g with status := .preparing }

/-- Modelled from the spec: `LockedGameState::start_complete` (absent
`crate::state`); on a successful node reply the game becomes `Created`. -/
def GameMem.startComplete (g : GameMem) : GameMem :=
  { g with status := .created }

/-- A start ack (`PacketGameStartPlayerClientInfoRequest`): the client's
game version string and the 20-byte map hash. -/
structure Ack where
  war3Version : String
  mapSha1 : List Nat
deriving DecidableEq, Repr

/-- Reject reasons of the node `create_game` RPC
(`ControllerCreateGameRejectReason`). -/
inductive CreateGameRejectReason
  | unknown
  | gameExists
  | playerBusy
  | maintenance
deriving DecidableEq, Repr

/-- The lobby error type (`crate::error::Error`), restricted to the variants
the embedded functions produce. -/
inductive FloError
  | multiJoin
  | gameNotFound
  | gameBusy
  | gameFull
  | playerSlotNotFound
  | playerNotInGame
  | playerNotHost
  | gameNodeNotSelected
  | gameCreateTimeout
  | gameCreateReject (reason : CreateGameRejectReason)
  | internal
deriving DecidableEq, Repr

/-- Packets the lobby pushes to players (`proto::flo_connect`), with the
payload fields the claims talk about. -/
inductive Packet
  | sessionUpdate (joinedGameId : Option Int)
  | gameInfo (gameId : Int)
  | gamePlayerEnter (gameId : Int) (slotIndex : Nat) (player : Int) (settings : SlotSettings)
  | gamePlayerLeave (gameId : Int) (player : Int)
  | gameSlotUpdate (gameId : Int) (slotIndex : Nat) (settings : SlotSettings)
  | gameStarting (gameId : Int)
  | gameStartReject (gameId : Int) (message : String) (infoMap : List (Int × Ack))
  | gamePlayerToken (nodeId : Int) (gameId : Int) (token : List Nat)
deriving DecidableEq, Repr

/-- Observable events of a lobby operation, in program order: lock
acquisitions, packets pushed towards a player, and node RPC calls. -/
inductive Event
  | lockPlayer (playerId : Int)
  | lockGame (gameId : Int)
  | sent (playerId : Int) (packet : Packet)
  | nodeCreateGame (gameId : Int) (nodeId : Int)
deriving DecidableEq, Repr

/-- The whole lobby state: in-memory player and game registries plus the
persisted game rows, all as association lists keyed by id. -/
structure LobbyState where
  players : List (Int × PlayerMem)
  games : List (Int × GameMem)
  db : List (Int × GameRow)
deriving DecidableEq, Repr

/-- First value bound to `k` in an association list. -/
def lookupA {α : Type} (k : Int) : List (Int × α) → Option α
  | [] => none
  | (k2, v) :: r => if k2 = k then some v else lookupA k r

/-- Replace the first binding of `k` (no-op when absent). -/
def updateA {α : Type} (k : Int) (f : α → α) : List (Int × α) → List (Int × α)
  | [] => []
  | (k2, v) :: r => if k2 = k then (k2, f v) :: r else (k2, v) :: updateA k f r

/-- Replace the first binding of `k`, appending a fresh one when absent. -/
def setA {α : Type} (k : Int) (v : α) : List (Int × α) → List (Int × α)
  | [] => [(k, v)]
  | (k2, v2) :: r => if k2 = k then (k2, v) :: r else (k2, v2) :: setA k v r

/-- In-memory player state for `player_id`; `lock_player_state` spawns an
empty record on demand, so the lookup defaults to a fresh one. -/
def LobbyState.player (s : LobbyState) (playerId : Int) : PlayerMem :=
  (lookupA playerId s.players).getD { joinedGameId := none, hasSender := false }

/-- Player ids of the occupied slots of a row (`Game::get_player_ids`). -/
def GameRow.playerIds (row : GameRow) : List Int :=
  row.slots.filterMap (·.player)

/-- Index and settings of the slot occupied by `playerId`
(`Game::get_player_slot_info`). -/
def GameRow.playerSlot (row : GameRow) (playerId : Int) : Option (Nat × SlotSettings) :=
  match row.slots.findIdx? (fun s => s.player = some playerId) with
  | none => none
  | some i => (row.slots.get? i).map (fun s => (i, s.settings))

/-- Result of one lobby operation: the error, if any, the state it leaves
behind, and the events it produced in order. -/
structure Outcome where
  error? : Option FloError
  state : LobbyState
  events : List Event
deriving DecidableEq, Repr

/-- Modelled from the spec: `crate::game::db::join` (the db layer is not
under src/); spec §4.5 `Join` assigns the lowest free slot.  Returns the
updated row (`get_full` after the join) and database, `none` when the game
row is missing or no slot is free. -/
def dbJoin (db : List (Int × GameRow)) (gameId playerId : Int) :
    Option (GameRow × List (Int × GameRow)) :=
  match lookupA gameId db with
  | none => none
  | some row =>
    match row.slots.findIdx? (fun s => s.player.isNone) with
    | none => none
    | some i =>
      match row.slots.get? i with
      | none => none
      | some sl =>
        let row2 := { row with slots := row.slots.set i { sl with player := some playerId } }
        some (row2, setA gameId row2 db)

/-- `join_game` (`crates/lobby/src/game/mod.rs`): player lock, `MultiJoin`
check, game lock, `GameNotFound` / `GameBusy` checks, database join, session
update and `GameInfo` to the joiner, `GamePlayerEnter` broadcast to the other
occupants. -/
def join_game (s : LobbyState) (gameId playerId : Int) : Outcome :=
  let p := s.player playerId
  if p.joinedGameId.isSome then
    ⟨some .multiJoin, s, [.lockPlayer playerId]⟩
  else
    match lookupA gameId s.games with
    | none => ⟨some .gameNotFound, s, [.lockPlayer playerId]⟩
    | some g =>
      if g.playerSlotsLocked then
        ⟨some .gameBusy, s, [.lockPlayer playerId, .lockGame gameId]⟩
      else
        match dbJoin s.db gameId playerId with
        | none => ⟨some .gameFull, s, [.lockPlayer playerId, .lockGame gameId]⟩
        | some (row, db2) =>
          let players2 := setA playerId { p with joinedGameId := some row.id } s.players
          let games2 := updateA gameId (fun g2 => { g2 with players := g2.players ++ [playerId] }) s.games
          let s2 : LobbyState := { players := players2, games := games2, db := db2 }
          let selfSends :=
            if p.hasSender then
              [Event.sent playerId (.sessionUpdate (some row.id)),
               Event.sent playerId (.gameInfo row.id)]
            else []
          match row.playerSlot playerId with
          | none =>
            ⟨some .playerSlotNotFound, s2, [.lockPlayer playerId, .lockGame gameId] ++ selfSends⟩
          | some (slotIndex, settings) =>
            let others := row.playerIds.filter (fun q => q ≠ playerId)
            ⟨none, s2,
              [.lockPlayer playerId, .lockGame gameId] ++ selfSends
                ++ others.map (fun q => .sent q (.gamePlayerEnter row.id slotIndex playerId settings))⟩

/-- Row returned by `crate::game::db::leave` (db layer absent from src/):
whether the game ended, the players removed, and the slots after the leave. -/
structure LeaveRow where
  gameEnded : Bool
  removedPlayers : List Int
  slots : List Slot
deriving DecidableEq, Repr

/-- Modelled from the spec: `crate::game::db::leave` (not under src/); spec
§4.5 `Leave`: if the leaver hosts the game or is its last member the game
ends and every occupant is evicted, otherwise only the leaver's slot is
vacated. -/
def dbLeave (db : List (Int × GameRow)) (gameId playerId : Int) :
    Option (LeaveRow × List (Int × GameRow)) :=
  match lookupA gameId db with
  | none => none
  | some row =>
    let occupants := row.playerIds
    if row.host = some playerId || occupants = [playerId] then
      let row2 := { row with
        slots := row.slots.map (fun s => { s with player := none }), status := .ended }
      some (⟨true, occupants, row2.slots⟩, setA gameId row2 db)
    else
      let row2 := { row with
        slots := row.slots.map
          (fun s => if s.player = some playerId then { s with player := none } else s) }
      some (⟨false, [playerId], row2.slots⟩, setA gameId row2 db)

/-- `leave_game` (`crates/lobby/src/game/mod.rs`): early `Ok` when the player
has no joined game; otherwise the operation runs against the player's
recorded game id (the `game_id` argument is only compared for a warning
log). -/
def leave_game (s : LobbyState) (gameId playerId : Int) : Outcome :=
  let p := s.player playerId
  match p.joinedGameId with
  | none => ⟨none, s, [.lockPlayer playerId]⟩
  | some stateGameId =>
    match lookupA stateGameId s.games with
    | none => ⟨some .gameNotFound, s, [.lockPlayer playerId]⟩
    | some g =>
      if g.playerSlotsLocked then
        ⟨some .gameBusy, s, [.lockPlayer playerId, .lockGame stateGameId]⟩
      else
        match dbLeave s.db stateGameId playerId with
        | none => ⟨some .internal, s, [.lockPlayer playerId, .lockGame stateGameId]⟩
        | some (leave, db2) =>
          if leave.gameEnded then
            let players2 := leave.removedPlayers.foldl
              (fun acc q =>
                let pm := (lookupA q acc).getD { joinedGameId := none, hasSender := false }
                setA q { pm with joinedGameId := none } acc)
              s.players
            let games2 := updateA stateGameId
              (fun g2 => { g2 with players := (g2.players.filter (fun q => q ≠ playerId)),
                                   status := .ended }) s.games
            let sends := leave.removedPlayers.filterMap
              (fun q =>
                if ((s.player q).hasSender) then
                  some (Event.sent q (.sessionUpdate none))
                else none)
            ⟨none, { players := players2, games := games2, db := db2 },
              [.lockPlayer playerId, .lockGame stateGameId] ++ sends⟩
          else
            let players2 := setA playerId { p with joinedGameId := none } s.players
            let games2 := updateA stateGameId
              (fun g2 => { g2 with players := g2.players.filter (fun q => q ≠ playerId) }) s.games
            let selfSends :=
              if p.hasSender then [Event.sent playerId (.sessionUpdate none)] else []
            let peers := leave.slots.filterMap (·.player)
            ⟨none, { players := players2, games := games2, db := db2 },
              [.lockPlayer playerId, .lockGame stateGameId] ++ selfSends
                ++ peers.map (fun q => .sent q (.gamePlayerLeave stateGameId playerId))⟩

/-- Modelled from the spec: `crate::game::db::update_slot_settings` (not
under src/) writes the new settings into the slot occupied by `playerId` and
returns the updated slots. -/
def dbUpdateSlotSettings (db : List (Int × GameRow)) (gameId playerId : Int)
    (settings : SlotSettings) : Option (List Slot × List (Int × GameRow)) :=
  match lookupA gameId db with
  | none => none
  | some row =>
    let row2 := { row with
      slots := row.slots.map
        (fun s => if s.player = some playerId then { s with settings := settings } else s) }
    some (row2.slots, setA gameId row2 db)

/-- `update_game_slot_settings` (`crates/lobby/src/game/mod.rs`): game lock,
`GameNotFound` / `PlayerNotInGame` checks, database update, then a
`GameSlotUpdate` broadcast to the game's registered players.  Note the
source performs no `player_slots_locked` check on this path. -/
def update_game_slot_settings (s : LobbyState) (gameId playerId : Int)
    (settings : SlotSettings) : Outcome :=
  match lookupA gameId s.games with
  | none => ⟨some .gameNotFound, s, []⟩
  | some g =>
    if ¬ g.players.contains playerId then
      ⟨some .playerNotInGame, s, [.lockGame gameId]⟩
    else
      match dbUpdateSlotSettings s.db gameId playerId settings with
      | none => ⟨some .internal, s, [.lockGame gameId]⟩
      | some (slots, db2) =>
        match slots.findIdx? (fun sl => sl.player = some playerId) with
        | none => ⟨some .playerSlotNotFound, { s with db := db2 }, [.lockGame gameId]⟩
        | some slotIndex =>
          ⟨none, { s with db := db2 },
            [.lockGame gameId]
              ++ g.players.map (fun q => .sent q (.gameSlotUpdate gameId slotIndex settings))⟩

/-- The result the node `create_game` RPC produced (`node_conn.create_game`;
the node connection layer is not under src/, so the reply is a parameter):
on success, the per-player 16-byte tokens. -/
structure CreatedGame where
  playerTokens : List (Int × List Nat)
deriving DecidableEq, Repr

/-- The localized reject message `create_node_game` builds from the node
error (`crates/lobby/src/game/mod.rs`). -/
def createErrMessage : FloError → String
  | .gameCreateTimeout => "Create game timeout."
  | .gameCreateReject .unknown => "Create game request rejected."
  | .gameCreateReject .gameExists => "Game already started."
  | .gameCreateReject .playerBusy => "Create game request rejected: Player busy."
  | .gameCreateReject .maintenance => "Create game request rejected: Server Maintenance."
  | _ => "Internal error."

/-- `create_node_game` (`crates/lobby/src/game/mod.rs`), with the node RPC
reply passed in as `rpc`.  On `Err` the source maps the error to a message
and pushes one `GameStartReject` to the host (when connected), then returns
`Ok` — it performs no status reset.  On `Ok` it marks the game `Created`,
fans the per-player tokens out and persists them. -/
def create_node_game (s : LobbyState) (gameId : Int)
    (rpc : Except FloError CreatedGame) : Outcome :=
  match lookupA gameId s.games with
  | none => ⟨some .gameNotFound, s, []⟩
  | some g =>
    match lookupA gameId s.db with
    | none => ⟨some .internal, s, []⟩
    | some row =>
      match row.node with
      | none => ⟨some .gameNodeNotSelected, s, []⟩
      | some nodeId =>
        match rpc with
        | .error err =>
          let hostSends :=
            match g.host with
            | some h =>
              if (s.player h).hasSender then
                [Event.sent h (.gameStartReject gameId (createErrMessage err) [])]
              else []
            | none => []
          ⟨none, s, [.nodeCreateGame gameId nodeId] ++ hostSends⟩
        | .ok created =>
          let games2 := updateA gameId GameMem.startComplete s.games
          let tokenSends := g.players.filterMap
            (fun q =>
              match lookupA q created.playerTokens with
              | some tok => some (Event.sent q (.gamePlayerToken nodeId gameId tok))
              | none => none)
          let db2 := setA gameId { row with status := .created } s.db
          ⟨none, { s with games := games2, db := db2 },
            [.nodeCreateGame gameId nodeId] ++ tokenSends⟩

/-- The consensus loop of `start_game_proceed`
(`crates/lobby/src/game/mod.rs`): walk the collected acks, pinning the first
version and hash seen and failing on the first disagreement. -/
def consensusLoop : Option String → Option (List Nat) → List Ack → Bool
  | _, _, [] => true
  | v?, s?, a :: rest =>
    let v := v?.getD a.war3Version
    if v ≠ a.war3Version then false
    else
      let sh := s?.getD a.mapSha1
      if sh ≠ a.mapSha1 then false
      else consensusLoop (some v) (some sh) rest

/-- The consensus check over the collected acks (`pass` in
`start_game_proceed`). -/
def consensusPass (acks : List Ack) : Bool :=
  consensusLoop none none acks

/-- The reject message broadcast on a failed consensus check. -/
def versionMismatchMessage : String :=
  "Unable to start the game because the game and map version check failed."

/-- `start_game_proceed` (`crates/lobby/src/game/mod.rs`): run the consensus
check over the collected acks; on disagreement reset the game to `Preparing`
and broadcast `GameStartReject` carrying the whole ack map; on agreement
call `create_node_game`. -/
def start_game_proceed (s : LobbyState) (gameId : Int)
    (ackMap : List (Int × Ack)) (rpc : Except FloError CreatedGame) : Outcome :=
  match lookupA gameId s.games with
  | none => ⟨some .gameNotFound, s, [.lockGame gameId]⟩
  | some g =>
    if ¬ consensusPass (ackMap.map Prod.snd) then
      let games2 := updateA gameId GameMem.startGameReset s.games
      ⟨none, { s with games := games2 },
        [.lockGame gameId]
          ++ g.players.map
              (fun q => .sent q (.gameStartReject gameId versionMismatchMessage ackMap))⟩
    else
      let inner := create_node_game s gameId rpc
      ⟨inner.error?, inner.state, [.lockGame gameId] ++ inner.events⟩

end Lobby

namespace Ctrl

/-- `PING_INTERVAL` of `crates/controller/src/client/mod.rs`, in seconds. -/
def PING_INTERVAL_SECS : Nat := 30

/-- `PING_TIMEOUT` of `crates/controller/src/client/mod.rs`, in seconds. -/
def PING_TIMEOUT_SECS : Nat := 5

/-- Reject reasons of `PacketClientConnectReject`
(`ClientConnectRejectReason`). -/
inductive ConnectRejectReason
  | invalidToken
  | clientVersionTooOld
deriving DecidableEq, Repr

/-- Packets a connection task writes to its stream
(`proto::flo_connect` / `proto::flo_common`), with the fields the claims
talk about. -/
inductive CPacket
  | connectReject (reason : ConnectRejectReason)
  | connectAccept (inGame : Bool) (gameId : Option Int) (nodes : List Int)
  | gameInfo (gameId : Int)
  | gamePlayerToken (nodeId : Int) (gameId : Int) (playerId : Int) (token : List Nat)
  | ping (ms : Nat)
  | clientDisconnect (reason : Nat)
  | frame (body : Nat)
deriving DecidableEq, Repr

/-- The first frame of a connection (`PacketConnectLobby`): the client
version (a protobuf optional, so `Option`) and the auth token bytes. -/
structure ConnectLobbyReq where
  connectVersion : Option Nat
  token : List Nat
deriving DecidableEq, Repr

/-- Result of the pre-registration part of `serve`
(`crates/controller/src/client/mod.rs` together with
`crates/lobby/src/connect/handshake.rs`): the packets written to the stream
and the accepted player id, `none` when the connection is dropped. -/
structure HandshakeOutcome where
  sent : List CPacket
  acceptedPlayer : Option Int
deriving DecidableEq, Repr

/-- The handshake and version gate of `serve`
(`crates/controller/src/client/mod.rs` lines 48-77, calling
`handle_handshake` of `crates/lobby/src/connect/handshake.rs`).  `validate`
stands for `validate_player_token` (`crate::player::token`, not under src/:
per spec §4.6 an HMAC check yielding the player id).  A missing
`connect_version` or a failed token validation makes `handle_handshake`
return `Err`, which `serve` handles by logging and returning — nothing is
written to the stream.  A valid token with a stale client version gets a
`ConnectReject{ClientVersionTooOld}` before the close. -/
def serve_connection_prelude (validate : List Nat → Option Int) (minVersion : Nat)
    (req : ConnectLobbyReq) : HandshakeOutcome :=
  match req.connectVersion with
  | none => ⟨[], none⟩
  | some v =>
    match validate req.token with
    | none => ⟨[], none⟩
    | some playerId =>
      if v < minVersion then ⟨[.connectReject .clientVersionTooOld], none⟩
      else ⟨[], some playerId⟩

/-- The game the connecting player is currently joined to, as the outside
world knows it: its id, status, selected node and this player's token. -/
structure JoinedGame where
  gameId : Int
  status : Lobby.GameStatus
  nodeId : Int
  token : List Nat
deriving DecidableEq, Repr

/-- An entry of the `get_player_active_slots` result (only the `game_id`
field is consumed by `send_initial_state`). -/
structure ActiveSlotRow where
  gameId : Int
deriving DecidableEq, Repr

/-- Modelled from the spec: `crate::game::db::get_player_active_slots` (the
db layer is not under src/).  Spec §4.6 step 5 sends the reconnect packets
exactly to a player "already in a `Created` game", so the db reports an
active slot exactly when the player's joined game has status `Created`. -/
def dbGetPlayerActiveSlots (world : Option JoinedGame) : List ActiveSlotRow :=
  match world with
  | none => []
  | some jg => if jg.status = .created then [⟨jg.gameId⟩] else []

/-- Modelled from the spec: `crate::game::db::get_full_and_node_token` (not
under src/): the game's selected node and this player's 16-byte token; spec
invariant 6 guarantees both exist for a `Created` game. -/
def dbGetFullAndNodeToken (world : Option JoinedGame) :
    Option Int × Option (List Nat) :=
  match world with
  | none => (none, none)
  | some jg => (some jg.nodeId, some jg.token)

/-- `send_initial_state` (`crates/controller/src/client/mod.rs`): build the
`ConnectAccept` frame (session status `InGame` iff an active slot exists),
then, when the player has an active game, append `GameInfo` and — when a
node player token is recorded — `GamePlayerToken`; all frames are then sent
in order with one `send_frames` call. -/
def send_initial_state (world : Option JoinedGame) (playerId : Int)
    (nodes : List Int) : Except Lobby.FloError (List CPacket) :=
  let activeSlots := dbGetPlayerActiveSlots world
  let gameId? := (activeSlots.getLast?).map (·.gameId)
  let base := [CPacket.connectAccept gameId?.isSome gameId? nodes]
  match gameId? with
  | none => .ok base
  | some gid =>
    let (nodeId?, token?) := dbGetFullAndNodeToken world
    let frames := base ++ [CPacket.gameInfo gid]
    match token? with
    | none => .ok frames
    | some tok =>
      match nodeId? with
      | none => .error .gameNodeNotSelected
      | some nid => .ok (frames ++ [CPacket.gamePlayerToken nid gid playerId tok])

/-- Inbound packets routed by the dispatch loop (`try_flo_packet!` arms of
`handle_stream`). -/
inductive InPacket
  | pong
  | gameSlotUpdateRequest
  | listNodesRequest
  | playerPingMapUpdateRequest
  | gamePlayerPingMapSnapshotRequest
  | gameSelectNodeRequest
  | gameStartRequest
  | gameStartPlayerClientInfoRequest
deriving DecidableEq, Repr

/-- The events a `handle_stream` select iteration can wake up on. -/
inductive LoopEvent
  | pingInterval (ms : Nat)
  | pingTimeoutFired
  | inbound (p : InPacket)
  | outFrame (body : Nat)
  | outDisconnect (reason : Nat)
  | senderDropped
  | recvFailed
deriving DecidableEq, Repr

/-- Loop-carried state of `handle_stream`: whether a ping timeout task is
pending (armed and not yet aborted). -/
structure LoopState where
  timeoutArmed : Bool
deriving DecidableEq, Repr

/-- Why the dispatch loop exited. -/
inductive ExitReason
  | heartbeatTimeout
  | disconnectPushed
  | senderDropped
  | recvError
deriving DecidableEq, Repr

/-- One iteration of the `handle_stream` select loop
(`crates/controller/src/client/mod.rs`):
the 30 s interval sends `Ping` and arms the 5 s timeout task; a fired
timeout (only possible while armed) breaks the loop; any inbound frame
first aborts the pending timeout; an outbound `Disconnect` flushes a
`ClientDisconnect` and breaks; a dropped sender or a receive error breaks. -/
def dispatchStep (st : LoopState) (ev : LoopEvent) :
    LoopState × List CPacket × Option ExitReason :=
  match ev with
  | .pingInterval ms => (⟨true⟩, [.ping ms], none)
  | .pingTimeoutFired =>
    if st.timeoutArmed then (st, [], some .heartbeatTimeout) else (st, [], none)
  | .inbound _ => (⟨false⟩, [], none)
  | .outFrame body => (st, [.frame body], none)
  | .outDisconnect reason => (st, [.clientDisconnect reason], some .disconnectPushed)
  | .senderDropped => (st, [], some .senderDropped)
  | .recvFailed => (st, [], some .recvError)

/-- Run the dispatch loop over a sequence of wake-ups, stopping at the first
exit. -/
def runLoop : LoopState → List LoopEvent → LoopState × List CPacket × Option ExitReason
  | st, [] => (st, [], none)
  | st, ev :: rest =>
    match dispatchStep st ev with
    | (st2, out, some e) => (st2, out, some e)
    | (st2, out, none) =>
      let (st3, out2, ex) := runLoop st2 rest
      (st3, out ++ out2, ex)

/-- Messages `serve` sends to the player registry actor. -/
inductive RegistryMsg
  | connect (playerId : Int)
  | disconnect (playerId : Int)
deriving DecidableEq, Repr

/-- The per-connection task of `serve`
(`crates/controller/src/client/mod.rs` lines 73-85): register the sender
(`Connect`), run `handle_stream`, and — whether the loop ended in an error
or not — send exactly one `Disconnect{player_id}` to the player registry. -/
def serve_session (playerId : Int) (events : List LoopEvent) :
    List CPacket × List RegistryMsg :=
  let (_, out, _) := runLoop ⟨false⟩ events
  (out, [.connect playerId, .disconnect playerId])

end Ctrl

namespace Lobby

/-- A concrete lobby with game 5 in `Starting` status, hosted by player 1
with players 1 and 2 seated and connected. -/
def startingState : LobbyState :=
  { players := [(1, ⟨some 5, true⟩), (2, ⟨some 5, true⟩)],
    games := [(5, ⟨[1, 2], .starting, some 1⟩)],
    db := [(5, ⟨5, some 1, some 9, [⟨some 1, 0⟩, ⟨some 2, 0⟩], .starting⟩)] }

/-- A concrete lobby with game 5 in `Starting` status used for the consensus
check scenarios. -/
def consensusState : LobbyState :=
  { players := [(1, ⟨some 5, true⟩), (2, ⟨some 5, true⟩)],
    games := [(5, ⟨[1, 2], .starting, some 1⟩)],
    db := [(5, ⟨5, some 1, some 9, [⟨some 1, 0⟩, ⟨some 2, 0⟩], .starting⟩)] }

/-- A concrete lobby with game 7 in `Preparing` status with one free slot,
and players 3 (seated, connected) and 4 (idle, connected). -/
def preparingState : LobbyState :=
  { players := [(3, ⟨some 7, true⟩), (4, ⟨none, true⟩)],
    games := [(7, ⟨[3], .preparing, some 3⟩)],
    db := [(7, ⟨7, some 3, none, [⟨some 3, 0⟩, ⟨none, 0⟩], .preparing⟩)] }

end Lobby

namespace W3GS

/-- A `GameSettings` value with a nonzero `unk_1` byte. -/
def oddUnk1Settings : GameSettings :=
  { gameSettingFlags := 1, unk1 := 1, mapWidth := 2, mapHeight := 3,
    mapChecksum := 4, mapPath := [120], hostName := [104],
    mapSha1 := List.replicate 20 0 }

/-- A well-formed `GameSettings` value as `GameSettings::new` builds them
(`unk_1 = 0`, a plausible map path, host name `FLO`). -/
def sampleSettings : GameSettings :=
  { gameSettingFlags := 3, unk1 := 0, mapWidth := 160, mapHeight := 160,
    mapChecksum := 77, mapPath := [120, 46, 119, 51, 109],
    hostName := [70, 76, 79],
    mapSha1 := List.replicate 20 5 }

end W3GS

open FloUtil W3GS Lobby Ctrl

/-- Looking a key up after updating it applies the update to the stored
value. -/
theorem lookupA_updateA_self {α : Type} (k : Int) (f : α → α) (l : List (Int × α)) :
    lookupA k (updateA k f l) = (lookupA k l).map f := by
  induction l with
  | nil => rfl
  | cons kv r ih =>
    obtain ⟨k2, v⟩ := kv
    by_cases h : k2 = k
    · simp [updateA, lookupA, h]
    · simp [updateA, lookupA, h, ih]

/-- Looking a key up after setting it yields the stored value. -/
theorem lookupA_setA_self {α : Type} (k : Int) (v : α) (l : List (Int × α)) :
    lookupA k (setA k v l) = some v := by
  induction l with
  | nil => simp [setA, lookupA]
  | cons kv r ih =>
    obtain ⟨k2, v2⟩ := kv
    by_cases h : k2 = k
    · simp [setA, lookupA, h]
    · simp [setA, lookupA, h, ih]

/-- C8 (corrected): the chat `MessageScope` codec decodes the little-endian
`u32` values `0x00`, `0x01`, `0x02` to `All`, `Allies`, `Observers`, decodes
`0x03 ≤ n ≤ 0xFC` to `Player(n - 0x03)` and larger values to an error, and
encodes `Player(v)` as `0x02 + v`; consequently decoding an encoded
`Player(v)` yields `Player(v - 1)` for `1 ≤ v ≤ 0xFA` (for `v > 0xFA` the
encoded value exceeds `0xFC` and decoding fails instead, which is where the
original claim's "every v ≥ 1" breaks). -/
theorem C8_message_scope_codec :
    MessageScope.decode 0x00 = .ok .all ∧
    MessageScope.decode 0x01 = .ok .allies ∧
    MessageScope.decode 0x02 = .ok .observers ∧
    (∀ n : Nat, 0x03 ≤ n → n ≤ 0xFC →
      MessageScope.decode n = .ok (.player (n - 0x03))) ∧
    (∀ n : Nat, 0xFC < n →
      MessageScope.decode n = .error ("invalid chat message scope value: " ++ toString n)) ∧
    (∀ v : Nat, MessageScope.encode (.player v) = 0x02 + v) ∧
    (∀ v : Nat, 1 ≤ v → v ≤ 0xFA →
      MessageScope.decode (MessageScope.encode (.player v)) = .ok (.player (v - 1))) := by
  refine ⟨rfl, rfl, rfl, ?_, ?_, fun v => rfl, ?_⟩
  · intro n h1 h2
    unfold MessageScope.decode
    rw [if_neg (by omega), if_neg (by omega), if_neg (by omega), if_pos (by omega)]
  · intro n h1
    unfold MessageScope.decode
    rw [if_neg (by omega), if_neg (by omega), if_neg (by omega), if_neg (by omega)]
  · intro v h1 h2
    show MessageScope.decode (0x02 + v) = .ok (.player (v - 1))
    unfold MessageScope.decode
    rw [if_neg (by omega), if_neg (by omega), if_neg (by omega), if_pos (by omega),
      show 0x02 + v - 0x03 = v - 1 from by omega]

/-- C8 witness: decoding the encoding of `Player 5` yields `Player 4`. -/
theorem C8_message_scope_codec_witness :
    MessageScope.decode (MessageScope.encode (.player 5)) = .ok (.player 4) :=
  C8_message_scope_codec.2.2.2.2.2.2 5 (by decide) (by decide)

/-- C8 counterexample: at `v = 251` the roundtrip of the original claim
fails — the encoded value `253 = 0xFD` is outside the decodable range, so
decoding errors out instead of yielding `Player 250`. -/
theorem C8_player_roundtrip_fails_at_251 :
    MessageScope.decode (MessageScope.encode (.player 251)) ≠ .ok (.player 250) := by
  intro h
  rw [show MessageScope.encode (.player 251) = 253 from rfl] at h
  unfold MessageScope.decode at h
  simp at h

/-- C5 (corrected): a connection whose first frame fails token validation is
dropped without anything being written to the stream — in particular no
`ConnectReject` packet; the only reject the pre-registration path ever
writes is `ClientVersionTooOld` (sent when the token is valid but the
client version is below the minimum). -/
theorem C5_invalid_token_drops_silently (validate : List Nat → Option Int)
    (minVersion : Nat) (req : ConnectLobbyReq) :
    (validate req.token = none →
      serve_connection_prelude validate minVersion req = ⟨[], none⟩) ∧
    (∀ pkt ∈ (serve_connection_prelude validate minVersion req).sent,
      pkt = CPacket.connectReject .clientVersionTooOld) := by
  constructor
  · intro h
    cases hv : req.connectVersion with
    | none => simp [serve_connection_prelude, hv]
    | some v => simp [serve_connection_prelude, hv, h]
  · intro pkt hmem
    cases hv : req.connectVersion with
    | none => simp [serve_connection_prelude, hv] at hmem
    | some v =>
      cases ht : validate req.token with
      | none => simp [serve_connection_prelude, hv, ht] at hmem
      | some pid =>
        by_cases hlt : v < minVersion
        · simp [serve_connection_prelude, hv, ht, hlt] at hmem
          exact hmem
        · simp [serve_connection_prelude, hv, ht, hlt] at hmem

/-- C5 witness: a concrete connection with an always-failing validator is
dropped with nothing sent. -/
theorem C5_invalid_token_drops_silently_witness :
    serve_connection_prelude (fun _ => none) 0 ⟨some 1, [7]⟩ = ⟨[], none⟩ :=
  (C5_invalid_token_drops_silently (fun _ => none) 0 ⟨some 1, [7]⟩).1 rfl

/-- C5 counterexample: contrary to the claim, no
`ConnectReject{InvalidToken}` is sent when the token fails validation —
nothing is sent at all. -/
theorem C5_no_invalid_token_reject_packet :
    CPacket.connectReject .invalidToken ∉
      (serve_connection_prelude (fun _ => none) 0 ⟨some 1, [7]⟩).sent := by
  decide

/-- Whether the connecting player's current game has status `Created`. -/
theorem C6_initial_state_packets (world : Option JoinedGame) (playerId : Int)
    (nodes : List Int) :
    ∃ frames, send_initial_state world playerId nodes = .ok frames ∧
      (∃ g : Option Int, frames.head? = some (.connectAccept g.isSome g nodes)) ∧
      ((∃ gid, CPacket.gameInfo gid ∈ frames) ↔
        (∃ jg, world = some jg ∧ jg.status = .created)) ∧
      ((∃ n gid tok, CPacket.gamePlayerToken n gid playerId tok ∈ frames) ↔
        (∃ jg, world = some jg ∧ jg.status = .created)) := by
  cases world with
  | none =>
    refine ⟨[.connectAccept false none nodes], rfl, ⟨none, rfl⟩, ?_, ?_⟩ <;> simp
  | some jg =>
    by_cases hc : jg.status = .created
    · refine ⟨[.connectAccept true (some jg.gameId) nodes, .gameInfo jg.gameId,
        .gamePlayerToken jg.nodeId jg.gameId playerId jg.token], ?_, ⟨some jg.gameId, rfl⟩, ?_, ?_⟩
      · simp [send_initial_state, dbGetPlayerActiveSlots, dbGetFullAndNodeToken, hc]
      · simp only [List.mem_cons, List.not_mem_nil]
        constructor
        · intro _; exact ⟨jg, rfl, hc⟩
        · intro _; exact ⟨jg.gameId, by simp⟩
      · simp only [List.mem_cons, List.not_mem_nil]
        constructor
        · intro _; exact ⟨jg, rfl, hc⟩
        · intro _; exact ⟨jg.nodeId, jg.gameId, jg.token, by simp⟩
    · refine ⟨[.connectAccept false none nodes], ?_, ⟨none, rfl⟩, ?_, ?_⟩
      · simp [send_initial_state, dbGetPlayerActiveSlots, hc]
      · simp only [List.mem_cons, List.not_mem_nil]
        constructor
        · rintro ⟨gid, h | h⟩ <;> simp at h
        · rintro ⟨jg2, hjg, hst⟩
          cases hjg
          exact absurd hst hc
      · simp only [List.mem_cons, List.not_mem_nil]
        constructor
        · rintro ⟨n, gid, tok, h | h⟩ <;> simp at h
        · rintro ⟨jg2, hjg, hst⟩
          cases hjg
          exact absurd hst hc

/-- C7 (confirmed): the heartbeat machinery of the dispatch loop — the 30 s
interval sends `Ping` and arms the 5 s timeout; a fired timeout while armed
exits the loop with a heartbeat timeout; any inbound frame disarms the
pending timeout; and the connection task delivers exactly one
`Disconnect{player_id}` to the player registry after the loop exits. -/
theorem C7_heartbeat_dispatch :
    PING_INTERVAL_SECS = 30 ∧ PING_TIMEOUT_SECS = 5 ∧
    (∀ (st : LoopState) (ms : Nat),
      dispatchStep st (.pingInterval ms) = (⟨true⟩, [.ping ms], none)) ∧
    (∀ st : LoopState, st.timeoutArmed = true →
      dispatchStep st .pingTimeoutFired = (st, [], some .heartbeatTimeout)) ∧
    (∀ (st : LoopState) (p : InPacket),
      (dispatchStep st (.inbound p)).1.timeoutArmed = false) ∧
    (∀ (playerId : Int) (events : List LoopEvent),
      (serve_session playerId events).2 =
        [RegistryMsg.connect playerId, RegistryMsg.disconnect playerId] ∧
      RegistryMsg.connect playerId ≠ RegistryMsg.disconnect playerId) := by
  refine ⟨rfl, rfl, fun st ms => rfl, ?_, fun st p => rfl, ?_⟩
  · intro st h
    simp [dispatchStep, h]
  · intro playerId events
    rcases hr : runLoop ⟨false⟩ events with ⟨st, out, ex⟩
    exact ⟨by simp [serve_session, hr], by simp⟩

/-- C7 witness: a pending timeout that fires exits the loop with a
heartbeat timeout. -/
theorem C7_heartbeat_dispatch_witness :
    dispatchStep ⟨true⟩ .pingTimeoutFired = (⟨true⟩, [], some .heartbeatTimeout) :=
  C7_heartbeat_dispatch.2.2.2.1 ⟨true⟩ rfl

/-- C10 (confirmed): `leave_game` with no joined game is a no-op returning
`Ok` and sending nothing; with a joined game recorded, the outcome is
entirely independent of the `game_id` argument (which only feeds a warning
log) — the operation runs against the player's recorded game, whose lock is
the one taken. -/
theorem C10_leave_game_uses_recorded_game (s : LobbyState) (g1 g2 playerId : Int) :
    ((s.player playerId).joinedGameId = none →
      leave_game s g1 playerId = ⟨none, s, [.lockPlayer playerId]⟩) ∧
    leave_game s g1 playerId = leave_game s g2 playerId ∧
    (∀ h, (s.player playerId).joinedGameId = some h →
      (lookupA h s.games).isSome = true →
      (leave_game s g1 playerId).events.take 2 = [.lockPlayer playerId, .lockGame h]) := by
  refine ⟨?_, rfl, ?_⟩
  · intro hnone
    simp [leave_game, hnone]
  · intro h hsome hmem
    cases hg : lookupA h s.games with
    | none => rw [hg] at hmem; simp at hmem
    | some g =>
      by_cases hl : g.playerSlotsLocked
      · simp [leave_game, hsome, hg, hl]
      · cases hd : dbLeave s.db h playerId with
        | none => simp [leave_game, hsome, hg, hl, hd]
        | some leavePair =>
          obtain ⟨leave, db2⟩ := leavePair
          by_cases he : leave.gameEnded <;>
            simp [leave_game, hsome, hg, hl, hd, he]

/-- C10 witness: in the concrete preparing lobby, player 4 (joined to no
game) leaves as a no-op, and player 3's leave is the same whatever game id
the request names. -/
theorem C10_leave_game_uses_recorded_game_witness :
    leave_game preparingState 99 4 = ⟨none, preparingState, [.lockPlayer 4]⟩ ∧
    leave_game preparingState 99 3 = leave_game preparingState 7 3 ∧
    (leave_game preparingState 99 3).events.take 2 = [.lockPlayer 3, .lockGame 7] :=
  ⟨(C10_leave_game_uses_recorded_game preparingState 99 99 4).1 (by decide),
   (C10_leave_game_uses_recorded_game preparingState 99 7 3).2.1,
   (C10_leave_game_uses_recorded_game preparingState 99 99 3).2.2 7 (by decide) (by decide)⟩

/-- C3 (code_bug): `update_game_slot_settings` performs no
`player_slots_locked` check, so with game 5 in `Starting` status — where the
spec demands a `GameBusy` rejection and unchanged slots — the update
succeeds: no error, the db slots change, and a `GameSlotUpdate` broadcast
goes out to the game's players. -/
theorem C3_slot_update_ignores_lock :
    ((lookupA 5 startingState.games).map GameMem.playerSlotsLocked = some true) ∧
    (update_game_slot_settings startingState 5 2 7).error? = none ∧
    (update_game_slot_settings startingState 5 2 7).error? ≠ some .gameBusy ∧
    ((lookupA 5 (update_game_slot_settings startingState 5 2 7).state.db).map GameRow.slots
      = some [⟨some 1, 0⟩, ⟨some 2, 7⟩]) ∧
    Event.sent 1 (.gameSlotUpdate 5 1 7) ∈ (update_game_slot_settings startingState 5 2 7).events ∧
    Event.sent 2 (.gameSlotUpdate 5 1 7) ∈ (update_game_slot_settings startingState 5 2 7).events := by
  decide

/-- C1 (code_bug): when the node `create_game` RPC fails, `create_node_game`
maps the error to its localized message and sends `GameStartReject` to the
host only — but, contrary to the claim and to spec §4.5/§8-4, performs no
reset: the game's status stays `Starting` (the state is unchanged), so the
start FSM does leave `Starting` on the NodeCreateErr path only in the spec,
not in the code. -/
theorem C1_node_create_error_keeps_starting :
    (create_node_game startingState 5 (.error .gameCreateTimeout)).error? = none ∧
    (create_node_game startingState 5 (.error .gameCreateTimeout)).events =
      [.nodeCreateGame 5 9, .sent 1 (.gameStartReject 5 "Create game timeout." [])] ∧
    (create_node_game startingState 5 (.error .gameCreateTimeout)).state = startingState ∧
    ((lookupA 5 (create_node_game startingState 5 (.error .gameCreateTimeout)).state.games).map
      GameMem.status = some .starting) ∧
    createErrMessage (.gameCreateReject .gameExists) = "Game already started." := by
  constructor
  · rfl
  · constructor
    · rfl
    · exact ⟨rfl, rfl, rfl⟩

/-- With the version and hash pinned, the consensus loop accepts exactly the
acks that agree with the pinned pair. -/
theorem consensusLoop_pinned (v : String) (sh : List Nat) (acks : List Ack) :
    consensusLoop (some v) (some sh) acks = true ↔
      ∀ a ∈ acks, a.war3Version = v ∧ a.mapSha1 = sh := by
  induction acks with
  | nil => simp [consensusLoop]
  | cons a rest ih =>
    rw [show consensusLoop (some v) (some sh) (a :: rest) =
      (if v ≠ a.war3Version then false
       else if sh ≠ a.mapSha1 then false
       else consensusLoop (some v) (some sh) rest) from rfl]
    split_ifs with h1 h2
    · simp only [Bool.false_eq_true, false_iff]
      intro hall
      exact h1 ((hall a (by simp)).1.symm)
    · simp only [Bool.false_eq_true, false_iff]
      intro hall
      exact h2 ((hall a (by simp)).2.symm)
    · push_neg at h1 h2
      rw [ih]
      constructor
      · intro hrest b hb
        rcases List.mem_cons.mp hb with hb | hb
        · subst hb
          exact ⟨h1.symm, h2.symm⟩
        · exact hrest b hb
      · intro hall b hb
        exact hall b (List.mem_cons_of_mem _ hb)

/-- The source's first-seen-pins-the-pair consensus loop accepts exactly the
ack collections in which all acks agree pairwise on version and hash. -/
theorem consensusPass_iff (acks : List Ack) :
    consensusPass acks = true ↔
      ∀ a ∈ acks, ∀ b ∈ acks,
        a.war3Version = b.war3Version ∧ a.mapSha1 = b.mapSha1 := by
  cases acks with
  | nil => simp [consensusPass, consensusLoop]
  | cons a rest =>
    have hstep : consensusPass (a :: rest) =
        consensusLoop (some a.war3Version) (some a.mapSha1) rest := by
      simp [consensusPass, consensusLoop]
    rw [hstep, consensusLoop_pinned]
    constructor
    · intro hrest x hx y hy
      have hagree : ∀ z ∈ a :: rest, z.war3Version = a.war3Version ∧ z.mapSha1 = a.mapSha1 := by
        intro z hz
        rcases List.mem_cons.mp hz with hz | hz
        · subst hz; exact ⟨rfl, rfl⟩
        · exact hrest z hz
      obtain ⟨hx1, hx2⟩ := hagree x hx
      obtain ⟨hy1, hy2⟩ := hagree y hy
      exact ⟨hx1.trans hy1.symm, hx2.trans hy2.symm⟩
    · intro hall b hb
      exact hall b (List.mem_cons_of_mem _ hb) a (List.mem_cons_self _ _)

/-- C2 (confirmed): the consensus check of `start_game_proceed` passes iff
all collected acks agree on `(war3_version, map_sha1)`; on disagreement the
game is reset to `Preparing`, a `GameStartReject` carrying the whole
`player_client_info_map` is broadcast to the game's registered players and
the node RPC is not called; on agreement the node `create_game` RPC is
called. -/
theorem C2_start_consensus :
    (∀ acks : List Ack, consensusPass acks = true ↔
      ∀ a ∈ acks, ∀ b ∈ acks,
        a.war3Version = b.war3Version ∧ a.mapSha1 = b.mapSha1) ∧
    (∀ (s : LobbyState) (gameId : Int) (ackMap : List (Int × Ack))
        (rpc : Except FloError CreatedGame) (g : GameMem),
      lookupA gameId s.games = some g →
      consensusPass (ackMap.map Prod.snd) = false →
      (start_game_proceed s gameId ackMap rpc).error? = none ∧
      (lookupA gameId (start_game_proceed s gameId ackMap rpc).state.games).map GameMem.status
        = some .preparing ∧
      (start_game_proceed s gameId ackMap rpc).events =
        .lockGame gameId ::
          g.players.map (fun q => .sent q (.gameStartReject gameId versionMismatchMessage ackMap)) ∧
      (∀ gid n, Event.nodeCreateGame gid n ∉ (start_game_proceed s gameId ackMap rpc).events)) ∧
    (∀ (s : LobbyState) (gameId : Int) (ackMap : List (Int × Ack))
        (rpc : Except FloError CreatedGame) (g : GameMem) (row : GameRow) (n : Int),
      lookupA gameId s.games = some g →
      lookupA gameId s.db = some row →
      row.node = some n →
      consensusPass (ackMap.map Prod.snd) = true →
      Event.nodeCreateGame gameId n ∈ (start_game_proceed s gameId ackMap rpc).events) := by
  refine ⟨consensusPass_iff, ?_, ?_⟩
  · intro s gameId ackMap rpc g hg hfail
    refine ⟨?_, ?_, ?_, ?_⟩
    · simp [start_game_proceed, hg, hfail]
    · simp [start_game_proceed, hg, hfail, lookupA_updateA_self, GameMem.startGameReset]
    · simp [start_game_proceed, hg, hfail]
    · intro gid n
      simp only [start_game_proceed, hg, hfail, Bool.false_eq_true, not_false_eq_true, if_true]
      intro hmem
      rcases List.mem_cons.mp hmem with h | h
      · exact Event.noConfusion h
      · obtain ⟨q, _, habs⟩ := List.mem_map.mp h
        exact Event.noConfusion habs
  · intro s gameId ackMap rpc g row n hg hrow hn hpass
    cases rpc with
    | error e =>
      simp [start_game_proceed, create_node_game, hg, hrow, hn, hpass]
    | ok created =>
      simp [start_game_proceed, create_node_game, hg, hrow, hn, hpass]

/-- C2 witness: in the concrete starting lobby, a hash/version disagreement
resets game 5 to `Preparing` without a node RPC; with agreeing acks the node
`create_game` RPC for node 9 is issued. -/
theorem C2_start_consensus_witness :
    consensusPass [⟨"a", [1]⟩, ⟨"b", [1]⟩] = false ∧
    (start_game_proceed consensusState 5 [(1, ⟨"a", [1]⟩), (2, ⟨"b", [1]⟩)] (.ok ⟨[]⟩)).error? = none ∧
    ((lookupA 5 (start_game_proceed consensusState 5 [(1, ⟨"a", [1]⟩), (2, ⟨"b", [1]⟩)]
        (.ok ⟨[]⟩)).state.games).map GameMem.status = some .preparing) ∧
    Event.nodeCreateGame 5 9 ∈
      (start_game_proceed consensusState 5 [(1, ⟨"a", [1]⟩), (2, ⟨"a", [1]⟩)] (.ok ⟨[]⟩)).events := by
  have hbad := C2_start_consensus.2.1 consensusState 5 [(1, ⟨"a", [1]⟩), (2, ⟨"b", [1]⟩)]
    (.ok ⟨[]⟩) ⟨[1, 2], .starting, some 1⟩ (by decide) (by decide)
  have hgood := C2_start_consensus.2.2 consensusState 5 [(1, ⟨"a", [1]⟩), (2, ⟨"a", [1]⟩)]
    (.ok ⟨[]⟩) ⟨[1, 2], .starting, some 1⟩ ⟨5, some 1, some 9, [⟨some 1, 0⟩, ⟨some 2, 0⟩], .starting⟩ 9
    (by decide) (by decide) (by decide) (by decide)
  exact ⟨by decide, hbad.1, hbad.2.1, hgood⟩

/-- C4 (confirmed): `join_game` fails with `MultiJoin` when the player is
already joined somewhere (checked first, under the player lock alone), then
`GameNotFound` when no game state exists, then `GameBusy` when the game's
slots are locked; the player lock is acquired before the game lock in every
run; on success the joiner is sent `GameInfo` and every other occupant of
the joined game row is sent `GamePlayerEnter` for the assigned slot. -/
theorem C4_join_game_checks (s : LobbyState) (gameId playerId : Int) :
    ((s.player playerId).joinedGameId.isSome = true →
      join_game s gameId playerId = ⟨some .multiJoin, s, [.lockPlayer playerId]⟩) ∧
    ((s.player playerId).joinedGameId = none → lookupA gameId s.games = none →
      join_game s gameId playerId = ⟨some .gameNotFound, s, [.lockPlayer playerId]⟩) ∧
    (∀ g : GameMem, (s.player playerId).joinedGameId = none →
      lookupA gameId s.games = some g → g.playerSlotsLocked = true →
      join_game s gameId playerId =
        ⟨some .gameBusy, s, [.lockPlayer playerId, .lockGame gameId]⟩) ∧
    (∀ (i : Nat) (gid2 : Int),
      (join_game s gameId playerId).events.get? i = some (.lockGame gid2) →
      ∃ j, j < i ∧ (join_game s gameId playerId).events.get? j = some (.lockPlayer playerId)) ∧
    (∀ (g : GameMem) (row : GameRow) (db2 : List (Int × GameRow))
        (slotIndex : Nat) (settings : SlotSettings),
      (s.player playerId).joinedGameId = none →
      lookupA gameId s.games = some g →
      g.playerSlotsLocked = false →
      dbJoin s.db gameId playerId = some (row, db2) →
      row.playerSlot playerId = some (slotIndex, settings) →
      (s.player playerId).hasSender = true →
      (join_game s gameId playerId).error? = none ∧
      Event.sent playerId (.gameInfo row.id) ∈ (join_game s gameId playerId).events ∧
      (∀ q ∈ row.playerIds, q ≠ playerId →
        Event.sent q (.gamePlayerEnter row.id slotIndex playerId settings) ∈
          (join_game s gameId playerId).events) ∧
      ((join_game s gameId playerId).state.player playerId).joinedGameId = some row.id) := by
  refine ⟨?_, ?_, ?_, ?_, ?_⟩
  · intro hjs
    simp [join_game, hjs]
  · intro hnone hg
    simp [join_game, hnone, hg]
  · intro g hnone hg hlock
    simp [join_game, hnone, hg, hlock]
  · intro i gid2 hi
    have hhead : ∃ tl, (join_game s gameId playerId).events = Event.lockPlayer playerId :: tl := by
      unfold join_game
      dsimp only
      repeat' split
      all_goals exact ⟨_, rfl⟩
    obtain ⟨tl, htl⟩ := hhead
    match i with
    | 0 =>
      rw [htl] at hi
      simp at hi
    | i + 1 =>
      exact ⟨0, Nat.succ_pos i, by rw [htl]; rfl⟩
  · intro g row db2 slotIndex settings hnone hg hlock hdb hslot hsender
    refine ⟨?_, ?_, ?_, ?_⟩
    · simp [join_game, hnone, hg, hlock, hdb, hslot]
    · simp [join_game, hnone, hg, hlock, hdb, hslot, hsender]
    · intro q hq hne
      simp only [join_game, hnone, Option.isSome_none, Bool.false_eq_true, if_false, hg,
        hlock, hdb, hslot, hsender, if_true]
      apply List.mem_append.mpr
      right
      exact List.mem_map.mpr ⟨q, List.mem_filter.mpr ⟨hq, by simp [hne]⟩, rfl⟩
    · simp only [join_game, hnone, Option.isSome_none, Bool.false_eq_true, if_false, hg,
        hlock, hdb, hslot, hsender, if_true]
      simp [LobbyState.player, lookupA_setA_self]

/-- C4 witness: in the concrete preparing lobby, player 3 (already seated)
gets `MultiJoin`; player 4 joining missing game 8 gets `GameNotFound`; and
player 4 joining game 7 succeeds, receiving `GameInfo` while seated player 3
receives `GamePlayerEnter` for slot 1. -/
theorem C4_join_game_checks_witness :
    join_game preparingState 7 3 = ⟨some .multiJoin, preparingState, [.lockPlayer 3]⟩ ∧
    join_game preparingState 8 4 = ⟨some .gameNotFound, preparingState, [.lockPlayer 4]⟩ ∧
    (join_game preparingState 7 4).error? = none ∧
    Event.sent 4 (.gameInfo 7) ∈ (join_game preparingState 7 4).events ∧
    Event.sent 3 (.gamePlayerEnter 7 1 4 0) ∈ (join_game preparingState 7 4).events := by
  have h1 := (C4_join_game_checks preparingState 7 3).1 (by decide)
  have h2 := (C4_join_game_checks preparingState 8 4).2.1 (by decide) (by decide)
  have h5 := (C4_join_game_checks preparingState 7 4).2.2.2.2
    ⟨[3], .preparing, some 3⟩ ⟨7, some 3, none, [⟨some 3, 0⟩, ⟨some 4, 0⟩], .preparing⟩
    [(7, ⟨7, some 3, none, [⟨some 3, 0⟩, ⟨some 4, 0⟩], .preparing⟩)] 1 0
    (by decide) (by decide) (by decide) (by decide) (by decide) (by decide)
  exact ⟨h1, h2, h5.1, h5.2.1, h5.2.2.1 3 (by decide) (by decide)⟩

/-- `ssEscape` preserves the group length. -/
theorem ssEscape_length (l : List Nat) : (ssEscape l).length = l.length := by
  induction l with
  | nil => rfl
  | cons b r ih => simp [ssEscape, ih]

/-- Every byte `ssEscape` emits is nonzero (even bytes get bit 0 set). -/
theorem ssEscape_pos (l : List Nat) : ∀ x ∈ ssEscape l, x ≠ 0 := by
  induction l with
  | nil => simp [ssEscape]
  | cons b r ih =>
    intro x hx
    simp only [ssEscape, List.mem_cons] at hx
    rcases hx with hx | hx
    · subst hx
      by_cases hb : b % 2 = 1
      · simp only [hb, if_true]
        omega
      · simp only [hb, if_false]
        omega
    · exact ih x hx

/-- Unmasking with the group's parity mask undoes the escape. -/
theorem ssApplyMask_ssMask (l : List Nat) :
    ssApplyMask (ssMask l) (ssEscape l) = l := by
  induction l with
  | nil => rfl
  | cons b r ih =>
    by_cases hb : b % 2 = 1
    · have hm2 : (1 + 2 * ssMask r) % 2 = 1 := by omega
      have hd2 : (1 + 2 * ssMask r) / 2 = ssMask r := by omega
      simp [ssEscape, ssMask, ssApplyMask, hb, hm2, hd2, ih]
    · have hb0 : b % 2 = 0 := by omega
      have hm2 : (2 * ssMask r) % 2 = 0 := by omega
      have hd2 : (2 * ssMask r) / 2 = ssMask r := by omega
      have hm2' : (0 + 2 * ssMask r) % 2 = 0 := by omega
      have hd2' : (0 + 2 * ssMask r) / 2 = ssMask r := by omega
      simp [ssEscape, ssMask, ssApplyMask, hb, hb0, hm2, hd2, hm2', hd2', ih]

/-- Any sufficient fuel computes the same stat-string encoding. -/
theorem ssEncodeAux_congr (f1 : Nat) :
    ∀ (f2 : Nat) (l : List Nat), l.length ≤ f1 → l.length ≤ f2 →
      ssEncodeAux f1 l = ssEncodeAux f2 l := by
  induction f1 with
  | zero =>
    intro f2 l h1 h2
    have hl : l = [] := List.length_eq_zero.mp (Nat.le_zero.mp h1)
    subst hl
    cases f2 <;> rfl
  | succ f ih =>
    intro f2 l h1 h2
    cases l with
    | nil => cases f2 <;> rfl
    | cons b r =>
      cases f2 with
      | zero => simp at h2
      | succ f2 =>
        simp only [ssEncodeAux, List.cons.injEq, true_and]
        congr 1
        exact ih f2 (r.drop 6) (by simp [List.length_drop]; simp at h1; omega)
          (by simp [List.length_drop]; simp at h2; omega)

/-- Any sufficient fuel computes the same stat-string decoding. -/
theorem ssDecodeAux_congr (f1 : Nat) :
    ∀ (f2 : Nat) (l : List Nat), l.length ≤ f1 → l.length ≤ f2 →
      ssDecodeAux f1 l = ssDecodeAux f2 l := by
  induction f1 with
  | zero =>
    intro f2 l h1 h2
    have hl : l = [] := List.length_eq_zero.mp (Nat.le_zero.mp h1)
    subst hl
    cases f2 <;> rfl
  | succ f ih =>
    intro f2 l h1 h2
    cases l with
    | nil => cases f2 <;> rfl
    | cons m rest =>
      cases f2 with
      | zero => simp at h2
      | succ f2 =>
        simp only [ssDecodeAux]
        congr 1
        exact ih f2 (rest.drop 7) (by simp [List.length_drop]; simp at h1; omega)
          (by simp [List.length_drop]; simp at h2; omega)

/-- One-group unfolding of `statStringEncode`. -/
theorem statStringEncode_cons (b : Nat) (r : List Nat) :
    statStringEncode (b :: r) =
      (1 + 2 * ssMask (b :: r.take 6)) ::
        (ssEscape (b :: r.take 6) ++ statStringEncode (r.drop 6)) := by
  show ssEncodeAux (r.length + 1) (b :: r) = _
  simp only [ssEncodeAux, List.cons.injEq, true_and]
  congr 1
  exact ssEncodeAux_congr r.length (r.drop 6).length (r.drop 6)
    (by simp [List.length_drop]) le_rfl

/-- One-group unfolding of `statStringDecode`. -/
theorem statStringDecode_cons (m : Nat) (rest : List Nat) :
    statStringDecode (m :: rest) =
      ssApplyMask (m / 2) (rest.take 7) ++ statStringDecode (rest.drop 7) := by
  show ssDecodeAux (rest.length + 1) (m :: rest) = _
  simp only [ssDecodeAux]
  congr 1
  exact ssDecodeAux_congr rest.length (rest.drop 7).length (rest.drop 7)
    (by simp [List.length_drop]) le_rfl

/-- Every byte of a stat-string encoding is nonzero, so the encoding is a
valid C string body. -/
theorem statStringEncode_pos (l : List Nat) : ∀ x ∈ statStringEncode l, x ≠ 0 := by
  suffices H : ∀ (n : Nat) (l : List Nat), l.length = n → ∀ x ∈ statStringEncode l, x ≠ 0 from
    H l.length l rfl
  intro n
  induction n using Nat.strong_induction_on with
  | _ n ih =>
    intro l hn
    cases l with
    | nil =>
      intro x hx
      simp [statStringEncode, ssEncodeAux] at hx
    | cons b r =>
      intro x hx
      rw [statStringEncode_cons] at hx
      rcases List.mem_cons.mp hx with hx | hx
      · omega
      · rcases List.mem_append.mp hx with hx | hx
        · exact ssEscape_pos _ x hx
        · subst hn
          exact ih (r.drop 6).length (by simp [List.length_drop]; omega) (r.drop 6) rfl x hx

/-- The length of a stat-string encoding: one extra mask byte per started
seven-byte group (matches `encoded_len`). -/
theorem statStringEncode_length (l : List Nat) :
    (statStringEncode l).length = statStringEncodedLen l.length := by
  suffices H : ∀ (n : Nat) (l : List Nat), l.length = n →
      (statStringEncode l).length = statStringEncodedLen l.length from H l.length l rfl
  intro n
  induction n using Nat.strong_induction_on with
  | _ n ih =>
    intro l hn
    cases l with
    | nil => simp [statStringEncode, ssEncodeAux, statStringEncodedLen]
    | cons b r =>
      rw [statStringEncode_cons]
      subst hn
      simp only [List.length_cons, List.length_append, ssEscape_length]
      rw [ih (r.drop 6).length (by simp [List.length_drop]; omega) (r.drop 6) rfl]
      simp only [statStringEncodedLen, List.length_drop, List.length_take, List.length_cons]
      omega

/-- Decoding a stat-string encoding recovers the raw bytes. -/
theorem statStringDecode_encode (l : List Nat) :
    statStringDecode (statStringEncode l) = l := by
  suffices H : ∀ (n : Nat) (l : List Nat), l.length = n →
      statStringDecode (statStringEncode l) = l from H l.length l rfl
  intro n
  induction n using Nat.strong_induction_on with
  | _ n ih =>
    intro l hn
    cases l with
    | nil => rfl
    | cons b r =>
      rw [statStringEncode_cons, statStringDecode_cons]
      have hesc : (ssEscape (b :: r.take 6)).length = (r.take 6).length + 1 := by
        simp [ssEscape_length]
      by_cases h6 : r.length ≤ 6
      · have ht : r.take 6 = r := List.take_of_length_le h6
        have hd : r.drop 6 = [] := List.drop_eq_nil_of_le h6
        rw [ht, hd]
        have hlen7 : (ssEscape (b :: r)).length ≤ 7 := by
          simp [ssEscape_length]
          omega
        rw [show statStringEncode [] = [] from rfl, List.append_nil,
          List.take_of_length_le hlen7, List.drop_eq_nil_of_le hlen7,
          show statStringDecode [] = [] from rfl, List.append_nil,
          show (1 + 2 * ssMask (b :: r)) / 2 = ssMask (b :: r) from by omega,
          ssApplyMask_ssMask]
      · have hlen7 : (ssEscape (b :: r.take 6)).length = 7 := by
          simp [ssEscape_length]
          omega
        rw [List.take_left' hlen7, List.drop_left' hlen7,
          show (1 + 2 * ssMask (b :: r.take 6)) / 2 = ssMask (b :: r.take 6) from by omega,
          ssApplyMask_ssMask]
        subst hn
        rw [ih (r.drop 6).length (by simp [List.length_drop]; omega) (r.drop 6) rfl]
        show b :: (r.take 6 ++ r.drop 6) = b :: r
        rw [List.take_append_drop]

/-- Reading a C string from a zero-free prefix followed by a NUL terminator
yields the prefix and the tail. -/
theorem readCString_append (a r : List Nat) (ha : ∀ x ∈ a, x ≠ 0) :
    readCString (a ++ 0 :: r) = some (a, r) := by
  induction a with
  | nil => rfl
  | cons b t ih =>
    have hb : b ≠ 0 := ha b (by simp)
    have ih2 := ih (fun x hx => ha x (by simp [hx]))
    match b, hb with
    | k + 1, _ =>
      have hstep : readCString (((k + 1) :: t) ++ 0 :: r)
          = match readCString (t ++ 0 :: r) with
            | none => none
            | some (s, rest) => some ((k + 1) :: s, rest) := rfl
      rw [hstep, ih2]

/-- Reading back a little-endian `u16`. -/
theorem readU16le_u16le (x : Nat) (r : List Nat) (hx : x < 2 ^ 16) :
    readU16le (u16le x ++ r) = some (x, r) := by
  simp only [u16le, List.cons_append, List.nil_append, readU16le]
  rw [show x % 256 + 256 * (x / 256 % 256) = x from by omega]

/-- Reading back a little-endian `u32`. -/
theorem readU32le_u32le (x : Nat) (r : List Nat) (hx : x < 2 ^ 32) :
    readU32le (u32le x ++ r) = some (x, r) := by
  simp only [u32le, List.cons_append, List.nil_append, readU32le]
  rw [show x % 256 + 256 * (x / 256 % 256) + 2 ^ 16 * (x / 2 ^ 16 % 256)
    + 2 ^ 24 * (x / 2 ^ 24 % 256) = x from by omega]

/-- C9 (corrected): `GameSettings::encode` is exactly the stat-string
encoding of the raw layout followed by a trailing NUL, where the byte after
the flags is the structure's `unk_1` field — equal to the claimed constant
`0x00` byte precisely when `unk_1 = 0` (as `GameSettings::new` sets it), the
one deviation from the claimed layout — and `decode` parses that layout back
into the structure's fields. -/
theorem C9_game_settings_codec (g : GameSettings) (flagsMask : Nat)
    (hwf : g.wf)
    (hflags : g.gameSettingFlags &&& flagsMask = g.gameSettingFlags)
    (hpath : 5 ≤ g.mapPath.length) (hhost : 1 ≤ g.hostName.length) :
    g.encode = statStringEncode g.sourceLayout ++ [0] ∧
    (g.unk1 = 0 → g.sourceLayout = g.claimedLayout) ∧
    GameSettings.decode flagsMask g.encode = .ok (g, []) := by
  obtain ⟨hf, hu, hw, hh, hc, hp, hhn, hs20, hsb⟩ := hwf
  refine ⟨rfl, ?_, ?_⟩
  · intro h0
    simp [GameSettings.sourceLayout, GameSettings.claimedLayout, h0]
  · have hassoc : g.sourceLayout =
        u32le g.gameSettingFlags ++ (g.unk1 :: (u16le g.mapWidth ++ (u16le g.mapHeight ++
          (u32le g.mapChecksum ++ (g.mapPath ++ (0 :: (g.hostName ++
            (0 :: (0 :: g.mapSha1))))))))) := by
      simp [GameSettings.sourceLayout, List.append_assoc]
    have hraw : g.sourceLayout.length = 36 + g.mapPath.length + g.hostName.length := by
      simp [GameSettings.sourceLayout, u32le, u16le, hs20]
      try omega
    have hnotlt : ¬ ((statStringEncode g.sourceLayout ++ [0]).length
        < statStringEncodedLen 42) := by
      rw [List.length_append, statStringEncode_length, hraw]
      simp only [statStringEncodedLen, List.length_cons, List.length_nil]
      omega
    have h1 : readCString (statStringEncode g.sourceLayout ++ 0 :: []) =
        some (statStringEncode g.sourceLayout, []) :=
      readCString_append _ _ (statStringEncode_pos _)
    have h2 : statStringDecode (statStringEncode g.sourceLayout) = g.sourceLayout :=
      statStringDecode_encode _
    have h3 : readU32le g.sourceLayout =
        some (g.gameSettingFlags, g.unk1 :: (u16le g.mapWidth ++ (u16le g.mapHeight ++
          (u32le g.mapChecksum ++ (g.mapPath ++ (0 :: (g.hostName ++
            (0 :: (0 :: g.mapSha1))))))))) := by
      rw [hassoc]
      exact readU32le_u32le _ _ hf
    have h5 : readU16le (u16le g.mapWidth ++ (u16le g.mapHeight ++
        (u32le g.mapChecksum ++ (g.mapPath ++ (0 :: (g.hostName ++
          (0 :: (0 :: g.mapSha1)))))))) =
        some (g.mapWidth, u16le g.mapHeight ++ (u32le g.mapChecksum ++ (g.mapPath ++
          (0 :: (g.hostName ++ (0 :: (0 :: g.mapSha1))))))) :=
      readU16le_u16le _ _ hw
    have h6 : readU16le (u16le g.mapHeight ++ (u32le g.mapChecksum ++ (g.mapPath ++
        (0 :: (g.hostName ++ (0 :: (0 :: g.mapSha1))))))) =
        some (g.mapHeight, u32le g.mapChecksum ++ (g.mapPath ++
          (0 :: (g.hostName ++ (0 :: (0 :: g.mapSha1)))))) :=
      readU16le_u16le _ _ hh
    have h7 : readU32le (u32le g.mapChecksum ++ (g.mapPath ++
        (0 :: (g.hostName ++ (0 :: (0 :: g.mapSha1)))))) =
        some (g.mapChecksum, g.mapPath ++ (0 :: (g.hostName ++ (0 :: (0 :: g.mapSha1))))) :=
      readU32le_u32le _ _ hc
    have h8 : readCString (g.mapPath ++ (0 :: (g.hostName ++ (0 :: (0 :: g.mapSha1))))) =
        some (g.mapPath, g.hostName ++ (0 :: (0 :: g.mapSha1))) :=
      readCString_append _ _ (fun x hx => (hp x hx).1.ne')
    have h9 : readCString (g.hostName ++ (0 :: (0 :: g.mapSha1))) =
        some (g.hostName, 0 :: g.mapSha1) :=
      readCString_append _ _ (fun x hx => (hhn x hx).1.ne')
    show GameSettings.decode flagsMask (statStringEncode g.sourceLayout ++ [0]) = _
    unfold GameSettings.decode
    rw [if_neg hnotlt, h1]
    simp only [h2, h3, h5, h6, h7, h8, h9, readU8, hflags, ne_eq, not_true_eq_false,
      if_false, List.length_cons, hs20]

/-- C9 witness: a concrete well-formed `GameSettings` value roundtrips
through encode and decode. -/
theorem C9_game_settings_codec_witness :
    GameSettings.decode 0xFFFFFFFF sampleSettings.encode = .ok (sampleSettings, []) :=
  (C9_game_settings_codec sampleSettings 0xFFFFFFFF (by decide) (by decide)
    (by decide) (by decide)).2.2

/-- C9 counterexample: for a `GameSettings` value whose `unk_1` byte is `1`,
the encoding is not the stat-string encoding of the claimed layout (which
puts a constant `0x00` after the flags) — the parity mask of the first group
differs. -/
theorem C9_layout_claim_fails_on_unk1 :
    oddUnk1Settings.encode ≠ statStringEncode oddUnk1Settings.claimedLayout ++ [0] := by
  decide
